import Mathlib

/-!
Shallow embedding of `src/sorare_bot.py` (class `SorareBot`): a monitoring
bot that authenticates against the Sorare GraphQL API, polls the five most
recently listed cards, and forwards one Discord webhook message per card.

Python values flowing through the bot are modelled by `Json` (Python `None`
is `Json.null`); Python exceptions by `PyErr` carried in `Except`.  External
effects (HTTP requests, prints, sleeps) are modelled by oracle functions
supplying each call outcome and by an event trace that each operation emits.
-/

namespace Sorare

/-- Python/JSON values as they appear in API responses.  `null` doubles as
Python `None` (both arise from `dict.get` misses and JSON `null`). -/
inductive Json where
  | null : Json
  | bool (b : Bool) : Json
  | num (n : Int) : Json
  | str (s : String) : Json
  | arr (elems : List Json) : Json
  | obj (fields : List (String × Json)) : Json

/-- Python exceptions raised by the operations modelled here. -/
inductive PyErr where
  | keyError (k : String) : PyErr
  | attributeError (attr : String) : PyErr
  | typeError (desc : String) : PyErr
  | indexError : PyErr
  | httpError (status : Nat) : PyErr
  | requestError (desc : String) : PyErr
  | exc (m : String) : PyErr

/-- `str(e)` for the modelled exceptions (as interpolated into f-strings). -/
def PyErr.msg : PyErr → String
  | .keyError k => "\x27" ++ k ++ "\x27"
  | .attributeError a => "object has no attribute \x27" ++ a ++ "\x27"
  | .typeError d => d
  | .indexError => "list index out of range"
  | .httpError st => toString st ++ " Error"
  | .requestError d => d
  | .exc m => m

mutual

/-- Python `repr` of a `Json` value (element form used inside `str(list)`). -/
def Json.pyRepr : Json → String
  | .null => "None"
  | .bool true => "True"
  | .bool false => "False"
  | .num n => toString n
  | .str s => "\x27" ++ s ++ "\x27"
  | .arr elems => "[" ++ Json.pyReprSeq elems ++ "]"
  | .obj fields => "\x7b" ++ Json.pyReprFields fields ++ "\x7d"

/-- Comma-separated `repr`s of list elements. -/
def Json.pyReprSeq : List Json → String
  | [] => ""
  | [x] => x.pyRepr
  | x :: rest => x.pyRepr ++ ", " ++ Json.pyReprSeq rest

/-- Comma-separated `repr`s of dict entries. -/
def Json.pyReprFields : List (String × Json) → String
  | [] => ""
  | [kv] => "\x27" ++ kv.1 ++ "\x27: " ++ kv.2.pyRepr
  | kv :: rest => "\x27" ++ kv.1 ++ "\x27: " ++ kv.2.pyRepr ++ ", " ++ Json.pyReprFields rest

end

/-- Python `str` of a `Json` value (as used by f-string interpolation). -/
def Json.pyStr : Json → String
  | .str s => s
  | j => j.pyRepr

/-- Python truthiness (`if not salt`, `if price_data`, `if errors`). -/
def Json.truthy : Json → Bool
  | .null => false
  | .bool b => b
  | .num n => n != 0
  | .str s => !s.isEmpty
  | .arr elems => !elems.isEmpty
  | .obj fields => !fields.isEmpty

/-- Python `d.get(k, default)`: `AttributeError` when the receiver is not a
dict (e.g. `None.get`), else the field value or the default. -/
def Json.pyGet (j : Json) (k : String) (default : Json) : Except PyErr Json :=
  match j with
  | .obj fields => .ok ((fields.lookup k).getD default)
  | _ => .error (.attributeError "get")

/-- Python `d[k]` with a string key: `KeyError` when the key is absent,
`TypeError` when the receiver is not a dict. -/
def Json.pyIdx (j : Json) (k : String) : Except PyErr Json :=
  match j with
  | .obj fields =>
      match fields.lookup k with
      | some v => .ok v
      | none => .error (.keyError k)
  | .arr _ => .error (.typeError "list indices must be integers or slices, not str")
  | _ => .error (.typeError "object is not subscriptable")

/-- Python `xs[i]` with an integer index. -/
def Json.pyIdxNat (j : Json) (i : Nat) : Except PyErr Json :=
  match j with
  | .arr elems =>
      match elems.get? i with
      | some v => .ok v
      | none => .error .indexError
  | .obj _ => .error (.keyError (toString i))
  | _ => .error (.typeError "object is not subscriptable")

/-- Python `for x in j`: lists yield elements, strings yield one-character
strings, dicts yield their keys; other values raise `TypeError`. -/
def Json.pyIter (j : Json) : Except PyErr (List Json) :=
  match j with
  | .arr elems => .ok elems
  | .str s => .ok (s.toList.map (fun c => .str (String.singleton c)))
  | .obj fields => .ok (fields.map (fun kv => .str kv.1))
  | _ => .error (.typeError "object is not iterable")

/-- Python `s.encode()`: only defined on strings. -/
def Json.encodeStr : Json → Except PyErr String
  | .str s => .ok s
  | _ => .error (.attributeError "encode")

/-- A `requests` response: HTTP status plus the outcome of `.json()`. -/
structure HttpResponse where
  status : Nat
  body : Except PyErr Json

/-- `response.raise_for_status()`: raises exactly for client-error (4xx)
and server-error (5xx) status codes, i.e. 400 ≤ status < 600; any other
status, including one of 600 or above, returns normally. -/
def raise_for_status (r : HttpResponse) : Except PyErr Unit :=
  if 400 ≤ r.status ∧ r.status < 600 then .error (.httpError r.status) else .ok ()

/-- A `requests.post` call as issued by the notifier. -/
structure PostRequest where
  url : String
  body : Json
  timeout : Nat

/-- The authenticated GraphQL client built on sign-in success. -/
structure GqlClient where
  url : String
  headers : List (String × String)

/-- The bot object: credentials plus the mutable `self.client` slot. -/
structure SorareBot where
  email : String
  password : String
  webhook : String
  client : Option GqlClient

/-- One normalized listing, fields in the order of the source dict literal. -/
structure Listing where
  slug : Json
  price : Json
  currency : Json
  player : Json

/-- Observable events emitted while the bot runs. -/
inductive Event where
  | getSalt (url : String) : Event
  | signIn : Event
  | fetchQuery (client : Option GqlClient) : Event
  | post (req : PostRequest) : Event
  | printed (line : String) : Event
  | sleep (seconds : Nat) : Event

/-- Whether an event is a webhook post. -/
def Event.isPost : Event → Bool
  | .post _ => true
  | _ => false

/-- The request of a post event, if any. -/
def Event.postReq : Event → Option PostRequest
  | .post req => some req
  | _ => none

/-- Whether an event is the salt request. -/
def Event.isGetSalt : Event → Bool
  | .getSalt _ => true
  | _ => false

/-- Whether an event is the sign-in mutation. -/
def Event.isSignIn : Event → Bool
  | .signIn => true
  | _ => false

/-- Whether an event is a listings query. -/
def Event.isFetch : Event → Bool
  | .fetchQuery _ => true
  | _ => false

/-- Salt endpoint URL, from `_get_salt`. -/
def saltUrl (email : String) : String :=
  "https://api.sorare.com/api/v1/users/" ++ email

/-- The constants of the fixed listings query (`cards(first: 5, listed:
true)` with `saleOffers(first: 1)`). -/
structure CardsQuery where
  first : Nat
  listed : Bool
  saleOffersFirst : Nat

/-- The query issued by `_fetch_listings`. -/
def listingsQuery : CardsQuery :=
  { first := 5, listed := true, saleOffersFirst := 1 }

/-- `_get_salt`: GET the salt resource, `raise_for_status`, return
`response.json().get("salt")`; any exception is caught, a warning is
printed and Python `None` is returned.  `getOutcome` is the outcome of the
`requests.get` call.  Returns the emitted events and the returned value. -/
def _get_salt (email : String) (getOutcome : Except PyErr HttpResponse) :
    List Event × Json :=
  let attempt : Except PyErr Json := do
    let response ← getOutcome
    let _ ← raise_for_status response
    let body ← response.body
    body.pyGet "salt" Json.null
  match attempt with
  | .ok v => ([.getSalt (saltUrl email)], v)
  | .error e =>
      ([.getSalt (saltUrl email),
        .printed ("⚠️ Error getting salt: " ++ e.msg)], Json.null)

/-- The authenticated client built from the sign-in result
(`Authorization: Bearer <token>`, `JWT-AUD`, `Content-Type` headers). -/
def mkAuthedClient (token : Json) : GqlClient :=
  { url := "https://api.sorare.com/graphql"
    headers :=
      [("Authorization", "Bearer " ++ token.pyStr),
       ("JWT-AUD", "sorare-bot"),
       ("Content-Type", "application/json")] }

/-- The tail of `_authenticate` after the sign-in mutation returned
`result`: inspect `result.get("signIn", \x7b\x7d).get("errors")`, raise on a
truthy errors value, else set `self.client` from the issued token. -/
def signInProcess (bot : SorareBot) (result : Json) : Except PyErr SorareBot := do
  let signInVal ← result.pyGet "signIn" (Json.obj [])
  let errors ← signInVal.pyGet "errors" Json.null
  if errors.truthy then
    Except.error (.exc ("Auth failed: " ++ errors.pyStr))
  else
    let signInEntry ← result.pyIdx "signIn"
    let jwt ← signInEntry.pyIdx "jwtToken"
    let token ← jwt.pyIdx "token"
    pure { bot with client := some (mkAuthedClient token) }

/-- `_authenticate`: fetch the salt, raise if it is falsy, hash the
password with it, run the sign-in mutation and process the result.
`hashpw` abstracts `bcrypt.hashpw`; `signInOutcome` gives the outcome of
the sign-in `execute` as a function of the hashed password.  Returns the
emitted events and either the updated bot or the raised exception. -/
def _authenticate (bot : SorareBot) (hashpw : String → String → String)
    (getOutcome : Except PyErr HttpResponse)
    (signInOutcome : String → Except PyErr Json) :
    List Event × Except PyErr SorareBot :=
  let gs := _get_salt bot.email getOutcome
  if gs.2.truthy then
    match gs.2.encodeStr with
    | .error e => (gs.1, .error e)
    | .ok saltStr =>
        let hashed := hashpw bot.password saltStr
        match signInOutcome hashed with
        | .error e => (gs.1 ++ [.signIn], .error e)
        | .ok result => (gs.1 ++ [.signIn], signInProcess bot result)
  else
    (gs.1, .error (.exc "Failed to retrieve salt from Sorare API."))

/-- `_send_alert`: POST `\x7b"content": message\x7d` to the webhook with a
5-second timeout; any exception is caught and logged.  `post` gives the
outcome of each `requests.post` call.  Returns the emitted events and the
(always normal) return. -/
def _send_alert (webhook : String) (post : PostRequest → Except PyErr Json)
    (message : String) : List Event × Except PyErr Unit :=
  let req : PostRequest :=
    { url := webhook, body := Json.obj [("content", Json.str message)], timeout := 5 }
  match post req with
  | .ok _ => ([.post req], .ok ())
  | .error e =>
      ([.post req,
        .printed ("⚠️ Failed to send Discord alert: " ++ e.msg)], .ok ())

/-- The per-card body of the `_fetch_listings` loop: read the first sale
offer price (sentinel "N/A" when `edges` is falsy), then build the listing
dict, evaluating `card["slug"]` and `card["player"]["displayName"]`. -/
def parseCard (card : Json) : Except PyErr Listing := do
  let saleOffers ← card.pyGet "saleOffers" (Json.obj [])
  let price_data ← saleOffers.pyGet "edges" (Json.arr [])
  let price ←
    if price_data.truthy then do
      let edge ← price_data.pyIdxNat 0
      let node ← edge.pyIdx "node"
      let priceVal ← node.pyIdx "price"
      priceVal.pyIdx "amount"
    else
      pure (Json.str "N/A")
  let currency ←
    if price_data.truthy then do
      let edge ← price_data.pyIdxNat 0
      let node ← edge.pyIdx "node"
      let priceVal ← node.pyIdx "price"
      priceVal.pyIdx "currency"
    else
      pure (Json.str "N/A")
  let slug ← card.pyIdx "slug"
  let player ← card.pyIdx "player"
  let displayName ← player.pyIdx "displayName"
  pure { slug := slug, price := price, currency := currency, player := displayName }

/-- The `for card in ... nodes` loop of `_fetch_listings`: one listing per
node, in order; an exception part-way discards the accumulated list. -/
def parseCards : List Json → Except PyErr (List Listing)
  | [] => .ok []
  | card :: rest => do
      let l ← parseCard card
      let tail ← parseCards rest
      pure (l :: tail)

/-- The parsing phase of `_fetch_listings` applied to the query result:
`result.get("football", \x7b\x7d).get("cards", \x7b\x7d).get("nodes", [])`
then the per-card loop. -/
def parseListings (result : Json) : Except PyErr (List Listing) := do
  let football ← result.pyGet "football" (Json.obj [])
  let cards ← football.pyGet "cards" (Json.obj [])
  let nodes ← cards.pyGet "nodes" (Json.arr [])
  let nodeList ← nodes.pyIter
  parseCards nodeList

/-- `_fetch_listings`: execute the listings query on `self.client`
(an `AttributeError` when the client is still `None`); an exception from
the execute is caught, reported to the webhook and `[]` is returned; the
response is then parsed outside any try block, so parsing exceptions
propagate.  `execOutcome` gives the outcome of `client.execute`. -/
def _fetch_listings (client : Option GqlClient) (webhook : String)
    (execOutcome : GqlClient → Except PyErr Json)
    (post : PostRequest → Except PyErr Json) :
    List Event × Except PyErr (List Listing) :=
  let r : Except PyErr Json :=
    match client with
    | none => .error (.attributeError "execute")
    | some c => execOutcome c
  match r with
  | .error e =>
      let failMsg := "⚠️ API request failed: " ++ e.msg
      ([Event.fetchQuery client, .printed failMsg] ++ (_send_alert webhook post failMsg).1,
       .ok [])
  | .ok result =>
      ([Event.fetchQuery client, .printed ("API Response: " ++ result.pyStr)],
       parseListings result)

/-- The notification message formatted for one listing in `run`. -/
def cardMessage (card : Listing) : String :=
  "⚽ " ++ card.player.pyStr ++ "\n" ++
  "💰 " ++ card.price.pyStr ++ " " ++ card.currency.pyStr ++ "\n" ++
  "🔗 https://sorare.com/cards/" ++ card.slug.pyStr

/-- One iteration of the `while True` body in `run`: fetch, then either
notify each listing and sleep 300 seconds, or (when an exception escaped
the fetch) alert and sleep 60 seconds. -/
def cycleStep (client : Option GqlClient) (webhook : String)
    (execOutcome : GqlClient → Except PyErr Json)
    (post : PostRequest → Except PyErr Json) : List Event :=
  let f := _fetch_listings client webhook execOutcome post
  match f.2 with
  | .ok listings =>
      f.1 ++
      (listings.map (fun card =>
        Event.printed (cardMessage card) :: (_send_alert webhook post (cardMessage card)).1)).flatten ++
      [Event.sleep 300]
  | .error e =>
      let error_msg := "⚠️ Unexpected error: " ++ e.msg
      f.1 ++ [Event.printed error_msg] ++ (_send_alert webhook post error_msg).1 ++
      [Event.sleep 60]

/-- The `while True` loop of `run`, observed for `fuel` iterations starting
at cycle index `k`; `execs` gives the outcome of the listings query on each
cycle. -/
def runCycles (client : Option GqlClient) (webhook : String)
    (execs : Nat → GqlClient → Except PyErr Json)
    (post : PostRequest → Except PyErr Json) : Nat → Nat → List Event
  | 0, _ => []
  | fuel + 1, k =>
      cycleStep client webhook (execs k) post ++
      runCycles client webhook execs post fuel (k + 1)

/-- `run`: authenticate once; on failure send one critical alert and
return; on success send the started alert, print the banner and enter the
cycle loop (observed for `fuel` iterations). -/
def run (bot : SorareBot) (hashpw : String → String → String)
    (getOutcome : Except PyErr HttpResponse)
    (signInOutcome : String → Except PyErr Json)
    (execs : Nat → GqlClient → Except PyErr Json)
    (post : PostRequest → Except PyErr Json) (fuel : Nat) : List Event :=
  match _authenticate bot hashpw getOutcome signInOutcome with
  | (authEvents, .error e) =>
      let error_msg := "🔴 Critical failure: " ++ e.msg
      authEvents ++ [Event.printed error_msg] ++ (_send_alert bot.webhook post error_msg).1
  | (authEvents, .ok authedBot) =>
      authEvents ++
      (_send_alert authedBot.webhook post "🟢 Sorare Bot Started Successfully").1 ++
      [Event.printed "🟢 Bot is running..."] ++
      runCycles authedBot.client authedBot.webhook execs post fuel 0

/-- The value of `self.client` after a call that may raise: Python leaves
the attribute untouched when the call raises, since the assignment is the
final statement of `_authenticate`. -/
def clientAfter (bot : SorareBot) (r : List Event × Except PyErr SorareBot) :
    Option GqlClient :=
  match r.2 with
  | .ok b2 => b2.client
  | .error _ => bot.client

/-! ### Helper lemmas -/

/-- The salt request emits no sign-in, post or fetch events. -/
theorem get_salt_events (email : String) (g : Except PyErr HttpResponse) :
    ((_get_salt email g).1).countP Event.isSignIn = 0 ∧
    ((_get_salt email g).1).countP Event.isFetch = 0 ∧
    ((_get_salt email g).1).filterMap Event.postReq = [] := by
  unfold _get_salt
  cases hg : (do
      let response ← g
      let _ ← raise_for_status response
      let body ← response.body
      body.pyGet "salt" Json.null : Except PyErr Json) with
  | ok v => simp [hg, Event.isSignIn, Event.isFetch, Event.postReq, List.countP_cons]
  | error e => simp [hg, Event.isSignIn, Event.isFetch, Event.postReq, List.countP_cons]

/-- `_authenticate` emits no post or fetch events, and sends exactly one
salt request. -/
theorem authenticate_events (bot : SorareBot) (hashpw : String → String → String)
    (g : Except PyErr HttpResponse) (s : String → Except PyErr Json) :
    ((_authenticate bot hashpw g s).1).countP Event.isFetch = 0 ∧
    ((_authenticate bot hashpw g s).1).filterMap Event.postReq = [] ∧
    ((_authenticate bot hashpw g s).1).countP Event.isGetSalt = 1 := by
  have hsalt : ∀ email gg, ((_get_salt email gg).1).countP Event.isFetch = 0 ∧
      ((_get_salt email gg).1).filterMap Event.postReq = [] ∧
      ((_get_salt email gg).1).countP Event.isGetSalt = 1 := by
    intro email gg
    unfold _get_salt
    cases hgg : (do
        let response ← gg
        let _ ← raise_for_status response
        let body ← response.body
        body.pyGet "salt" Json.null : Except PyErr Json) with
    | ok v => simp [hgg, Event.isFetch, Event.postReq, Event.isGetSalt, List.countP_cons]
    | error e => simp [hgg, Event.isFetch, Event.postReq, Event.isGetSalt, List.countP_cons]
  unfold _authenticate
  rcases hsalt bot.email g with ⟨h1, h2, h3⟩
  by_cases ht : ((_get_salt bot.email g).2).truthy
  · simp only [ht, if_true]
    cases he : ((_get_salt bot.email g).2).encodeStr with
    | error e => exact ⟨h1, h2, h3⟩
    | ok saltStr =>
        cases hs : s (hashpw bot.password saltStr) with
        | error e =>
            refine ⟨?_, ?_, ?_⟩ <;>
              simp [hs, List.countP_append, List.filterMap_append, h1, h2, h3,
                Event.isFetch, Event.postReq, Event.isGetSalt, List.countP_cons]
        | ok result =>
            refine ⟨?_, ?_, ?_⟩ <;>
              simp [hs, List.countP_append, List.filterMap_append, h1, h2, h3,
                Event.isFetch, Event.postReq, Event.isGetSalt, List.countP_cons]
  · simp only [ht, if_false]
    exact ⟨h1, h2, h3⟩

/-- `_send_alert` emits exactly one post event, carrying the request it
issued, and no fetch, salt or sign-in events. -/
theorem send_alert_events (webhook : String) (post : PostRequest → Except PyErr Json)
    (message : String) :
    ((_send_alert webhook post message).1).filterMap Event.postReq =
      [{ url := webhook, body := Json.obj [("content", Json.str message)], timeout := 5 }] ∧
    ((_send_alert webhook post message).1).countP Event.isFetch = 0 ∧
    ((_send_alert webhook post message).1).countP Event.isGetSalt = 0 := by
  unfold _send_alert
  cases hp : post { url := webhook, body := Json.obj [("content", Json.str message)], timeout := 5 } with
  | ok v => simp [hp, Event.postReq, Event.isFetch, Event.isGetSalt, List.countP_cons]
  | error e => simp [hp, Event.postReq, Event.isFetch, Event.isGetSalt, List.countP_cons]

/-! ### Concrete fixtures for witnesses and counterexamples -/

/-- A sample authenticated client. -/
def exClient : GqlClient := mkAuthedClient (Json.str "tok")

/-- A sample bot object before authentication. -/
def exBot : SorareBot :=
  { email := "user@example.com", password := "pw",
    webhook := "https://hooks.example/wh", client := none }

/-- A stand-in for `bcrypt.hashpw`. -/
def exHash : String → String → String := fun p s => s ++ "$" ++ p

/-- A webhook post oracle that always succeeds. -/
def postOk : PostRequest → Except PyErr Json := fun _ => .ok Json.null

/-- A listings response whose single card node is an empty dict. -/
def bareNodeResponse : Json :=
  Json.obj [("football", Json.obj [("cards",
    Json.obj [("nodes", Json.arr [Json.obj []])])])]

/-! ### Claim theorems -/

/-- C1 (counterexample): the claim says `_fetch_listings` never throws to
its caller, for every behavior of the listings API including missing
fields in a card node; but on a response whose card node lacks a `slug`
field, the parsing loop sits outside the try block and `card["slug"]`
raises a `KeyError` that escapes `_fetch_listings`. -/
theorem fetch_listings_throws_on_malformed_node :
    (_fetch_listings (some exClient) exBot.webhook (fun _ => .ok bareNodeResponse)
      postOk).2 = .error (.keyError "slug") := rfl

/-- C1 (amended): when the listings query execution itself fails, the
failure is caught inside `_fetch_listings`: exactly one alert whose body
carries the error text is posted, the empty list is returned, and the
cycle still ends in the normal 300-second sleep. -/
theorem fetch_listings_exec_failure_caught (c : GqlClient) (webhook : String)
    (execOutcome : GqlClient → Except PyErr Json)
    (post : PostRequest → Except PyErr Json) (e : PyErr)
    (h : execOutcome c = .error e) :
    (_fetch_listings (some c) webhook execOutcome post).2 = .ok [] ∧
    ((_fetch_listings (some c) webhook execOutcome post).1).filterMap Event.postReq =
      [{ url := webhook,
         body := Json.obj [("content", Json.str ("⚠️ API request failed: " ++ e.msg))],
         timeout := 5 }] ∧
    cycleStep (some c) webhook execOutcome post =
      (_fetch_listings (some c) webhook execOutcome post).1 ++ [Event.sleep 300] := by
  have hf : _fetch_listings (some c) webhook execOutcome post =
      ([Event.fetchQuery (some c),
        .printed ("⚠️ API request failed: " ++ e.msg)] ++
        (_send_alert webhook post ("⚠️ API request failed: " ++ e.msg)).1, .ok []) := by
    unfold _fetch_listings
    simp [h]
  refine ⟨by rw [hf], ?_, ?_⟩
  · rw [hf]
    simp [Event.postReq, (send_alert_events webhook post _).1]
  · unfold cycleStep
    rw [hf]
    simp

/-- C1 (witness for the amended theorem): a network failure of the query
on a concrete run. -/
theorem fetch_listings_exec_failure_caught_witness :
    (_fetch_listings (some exClient) exBot.webhook
      (fun _ => .error (.requestError "connection refused")) postOk).2 = .ok [] ∧
    ((_fetch_listings (some exClient) exBot.webhook
      (fun _ => .error (.requestError "connection refused")) postOk).1).filterMap
        Event.postReq =
      [{ url := exBot.webhook,
         body := Json.obj [("content",
           Json.str ("⚠️ API request failed: " ++ (PyErr.requestError "connection refused").msg))],
         timeout := 5 }] ∧
    cycleStep (some exClient) exBot.webhook
      (fun _ => .error (.requestError "connection refused")) postOk =
      (_fetch_listings (some exClient) exBot.webhook
        (fun _ => .error (.requestError "connection refused")) postOk).1 ++
      [Event.sleep 300] :=
  fetch_listings_exec_failure_caught exClient exBot.webhook
    (fun _ => .error (.requestError "connection refused")) postOk
    (.requestError "connection refused") rfl

/-- C2: `_send_alert` always returns normally, issues exactly one webhook
POST (no retry) whose body is the JSON object with a single `content`
field holding the message, with a 5-second timeout, for every outcome of
the POST. -/
theorem send_alert_contract (webhook : String)
    (post : PostRequest → Except PyErr Json) (message : String) :
    (_send_alert webhook post message).2 = .ok () ∧
    ((_send_alert webhook post message).1).filterMap Event.postReq =
      [{ url := webhook, body := Json.obj [("content", Json.str message)], timeout := 5 }] := by
  unfold _send_alert
  cases hp : post { url := webhook, body := Json.obj [("content", Json.str message)], timeout := 5 } with
  | ok v => simp [hp, Event.postReq]
  | error e => simp [hp, Event.postReq]

/-- C3: a card whose sale-offer edges list is empty parses to a listing
with the "N/A" sentinel for both price and currency, with no error, for
any slug and player name. -/
theorem parseCard_no_offers (card saleOffersVal slugVal playerObj playerName : Json)
    (hso : card.pyGet "saleOffers" (Json.obj []) = .ok saleOffersVal)
    (hedges : saleOffersVal.pyGet "edges" (Json.arr []) = .ok (Json.arr []))
    (hslug : card.pyIdx "slug" = .ok slugVal)
    (hplayer : card.pyIdx "player" = .ok playerObj)
    (hname : playerObj.pyIdx "displayName" = .ok playerName) :
    parseCard card =
      .ok { slug := slugVal, price := Json.str "N/A",
            currency := Json.str "N/A", player := playerName } := by
  unfold parseCard
  simp [hso, hedges, hslug, hplayer, hname, Json.truthy, bind, Except.bind,
    Functor.map, Except.map, pure, Except.pure]

/-- C3 (witness): a concrete card with zero sale offers. -/
theorem parseCard_no_offers_witness :
    parseCard (Json.obj [("slug", Json.str "card-1"),
      ("player", Json.obj [("displayName", Json.str "Player One")]),
      ("saleOffers", Json.obj [("edges", Json.arr [])])]) =
      .ok { slug := Json.str "card-1", price := Json.str "N/A",
            currency := Json.str "N/A", player := Json.str "Player One" } :=
  parseCard_no_offers
    (Json.obj [("slug", Json.str "card-1"),
      ("player", Json.obj [("displayName", Json.str "Player One")]),
      ("saleOffers", Json.obj [("edges", Json.arr [])])])
    (Json.obj [("edges", Json.arr [])]) (Json.str "card-1")
    (Json.obj [("displayName", Json.str "Player One")]) (Json.str "Player One")
    rfl rfl rfl rfl rfl

/-- C4 (counterexample): the claim counts every non-2xx status as a salt
retrieval failure, but `raise_for_status` raises only for 4xx/5xx: on a
303 response whose body still carries a salt, `_authenticate` proceeds to
issue the sign-in mutation. -/
theorem auth_signin_attempted_on_303 :
    (_authenticate exBot exHash
      (.ok { status := 303, body := .ok (Json.obj [("salt", Json.str "abc123")]) })
      (fun _ => .ok (Json.obj []))).1 =
      [Event.getSalt (saltUrl exBot.email), Event.signIn] := rfl

/-- C4 (amended): whenever salt retrieval fails with a network error, an
HTTP 4xx/5xx status, or a response body without a `salt` field,
`_authenticate` raises the salt failure before the sign-in mutation is
issued: no sign-in event occurs in any such run. -/
theorem auth_fails_before_signin (bot : SorareBot)
    (hashpw : String → String → String) (getOutcome : Except PyErr HttpResponse)
    (signInOutcome : String → Except PyErr Json)
    (h : (∃ e, getOutcome = .error e) ∨
         (∃ r, getOutcome = .ok r ∧ 400 ≤ r.status ∧ r.status < 600) ∨
         (∃ r fields, getOutcome = .ok r ∧ r.body = .ok (Json.obj fields) ∧
           fields.lookup "salt" = none)) :
    (_authenticate bot hashpw getOutcome signInOutcome).2 =
      .error (.exc "Failed to retrieve salt from Sorare API.") ∧
    ((_authenticate bot hashpw getOutcome signInOutcome).1).countP Event.isSignIn = 0 := by
  have hnull : (_get_salt bot.email getOutcome).2 = Json.null := by
    rcases h with ⟨e, rfl⟩ | ⟨r, rfl, hr⟩ | ⟨r, fields, rfl, hb, hf⟩
    · rfl
    · have hrfs : raise_for_status r = .error (.httpError r.status) := by
        unfold raise_for_status
        simp [hr.1, hr.2]
      unfold _get_salt
      simp [bind, Except.bind, hrfs]
    · by_cases hst : 400 ≤ r.status ∧ r.status < 600
      · have hrfs : raise_for_status r = .error (.httpError r.status) := by
          unfold raise_for_status
          simp [hst.1, hst.2]
        unfold _get_salt
        simp [bind, Except.bind, hrfs]
      · have hrfs : raise_for_status r = .ok () := by
          unfold raise_for_status
          simp [hst]
        unfold _get_salt
        simp [bind, Except.bind, hrfs, hb, Json.pyGet, hf]
  have ht : ((_get_salt bot.email getOutcome).2).truthy = false := by
    rw [hnull]
    rfl
  refine ⟨?_, ?_⟩ <;>
    simp [_authenticate, ht, (get_salt_events bot.email getOutcome).1]

/-- C4 (witness for the amended theorem): a network error on the salt
request in a concrete run. -/
theorem auth_fails_before_signin_witness :
    (_authenticate exBot exHash (.error (.requestError "timeout"))
      (fun _ => .ok (Json.obj []))).2 =
      .error (.exc "Failed to retrieve salt from Sorare API.") ∧
    ((_authenticate exBot exHash (.error (.requestError "timeout"))
      (fun _ => .ok (Json.obj []))).1).countP Event.isSignIn = 0 :=
  auth_fails_before_signin exBot exHash (.error (.requestError "timeout"))
    (fun _ => .ok (Json.obj [])) (Or.inl ⟨.requestError "timeout", rfl⟩)

/-- C5: when the sign-in response carries a non-empty `errors` list,
`_authenticate` raises an `Auth failed` error embedding those messages
and does not construct a session: the client slot is left unchanged
(still `None`). -/
theorem auth_errors_no_session (bot : SorareBot)
    (hashpw : String → String → String) (getOutcome : Except PyErr HttpResponse)
    (signInOutcome : String → Except PyErr Json) (saltStr : String)
    (result signInVal : Json) (msgs : List Json)
    (hsget : (_get_salt bot.email getOutcome).2 = Json.str saltStr)
    (hsalt : saltStr ≠ "")
    (hresp : signInOutcome (hashpw bot.password saltStr) = .ok result)
    (hsign : result.pyGet "signIn" (Json.obj []) = .ok signInVal)
    (herr : signInVal.pyGet "errors" Json.null = .ok (Json.arr msgs))
    (hm : msgs ≠ [])
    (hc : bot.client = none) :
    (_authenticate bot hashpw getOutcome signInOutcome).2 =
      .error (.exc ("Auth failed: " ++ (Json.arr msgs).pyStr)) ∧
    clientAfter bot (_authenticate bot hashpw getOutcome signInOutcome) = none := by
  have ht : ((_get_salt bot.email getOutcome).2).truthy = true := by
    rw [hsget]
    cases hse : saltStr.isEmpty with
    | false => simp [Json.truthy, hse]
    | true => exact absurd ((String.isEmpty_iff saltStr).mp hse) hsalt
  have he : ((_get_salt bot.email getOutcome).2).encodeStr = .ok saltStr := by
    rw [hsget]
    rfl
  have htm : (Json.arr msgs).truthy = true := by
    cases msgs with
    | nil => exact absurd rfl hm
    | cons a rest => rfl
  have hsp : signInProcess bot result =
      .error (.exc ("Auth failed: " ++ (Json.arr msgs).pyStr)) := by
    unfold signInProcess
    simp [hsign, herr, htm, bind, Except.bind]
  have hrun : (_authenticate bot hashpw getOutcome signInOutcome).2 =
      .error (.exc ("Auth failed: " ++ (Json.arr msgs).pyStr)) := by
    simp [_authenticate, ht, he, hresp, hsp]
  refine ⟨hrun, ?_⟩
  unfold clientAfter
  rw [hrun]
  exact hc

/-- C5 (witness): a concrete sign-in response with one error message. -/
theorem auth_errors_no_session_witness :
    (_authenticate exBot exHash
      (.ok { status := 200, body := .ok (Json.obj [("salt", Json.str "abc123")]) })
      (fun _ => .ok (Json.obj [("signIn", Json.obj [("errors",
        Json.arr [Json.obj [("message", Json.str "Invalid credentials")]])])]))).2 =
      .error (.exc ("Auth failed: " ++
        (Json.arr [Json.obj [("message", Json.str "Invalid credentials")]]).pyStr)) ∧
    clientAfter exBot (_authenticate exBot exHash
      (.ok { status := 200, body := .ok (Json.obj [("salt", Json.str "abc123")]) })
      (fun _ => .ok (Json.obj [("signIn", Json.obj [("errors",
        Json.arr [Json.obj [("message", Json.str "Invalid credentials")]])])]))) = none :=
  auth_errors_no_session exBot exHash
    (.ok { status := 200, body := .ok (Json.obj [("salt", Json.str "abc123")]) })
    (fun _ => .ok (Json.obj [("signIn", Json.obj [("errors",
      Json.arr [Json.obj [("message", Json.str "Invalid credentials")]])])]))
    "abc123"
    (Json.obj [("signIn", Json.obj [("errors",
      Json.arr [Json.obj [("message", Json.str "Invalid credentials")]])])])
    (Json.obj [("errors",
      Json.arr [Json.obj [("message", Json.str "Invalid credentials")]])])
    [Json.obj [("message", Json.str "Invalid credentials")]]
    rfl (by decide) rfl rfl rfl (List.cons_ne_nil _ _) rfl

/-- C10: a salt field that is present but falsy (JSON null or the empty
string) makes `_authenticate` behave exactly as a missing salt: the same
salt-retrieval failure is raised, the sign-in mutation is never attempted,
and the whole call is equal to the call whose response body has no salt
field at all. -/
theorem auth_falsy_salt_like_missing (bot : SorareBot)
    (hashpw : String → String → String) (signInOutcome : String → Except PyErr Json)
    (status : Nat) (fields : List (String × Json)) (v : Json)
    (hstatus : status < 400)
    (hfield : fields.lookup "salt" = some v)
    (hfalsy : v = Json.null ∨ v = Json.str "") :
    (_authenticate bot hashpw (.ok { status := status, body := .ok (Json.obj fields) })
      signInOutcome).2 = .error (.exc "Failed to retrieve salt from Sorare API.") ∧
    ((_authenticate bot hashpw (.ok { status := status, body := .ok (Json.obj fields) })
      signInOutcome).1).countP Event.isSignIn = 0 ∧
    _authenticate bot hashpw (.ok { status := status, body := .ok (Json.obj fields) })
      signInOutcome =
      _authenticate bot hashpw (.ok { status := status, body := .ok (Json.obj []) })
        signInOutcome := by
  have hnle : ¬ 400 ≤ status := Nat.not_le.mpr hstatus
  have hrfs : ∀ b, raise_for_status { status := status, body := b } = .ok () := by
    intro b
    unfold raise_for_status
    simp [hnle]
  have h1 : _get_salt bot.email (.ok { status := status, body := .ok (Json.obj fields) }) =
      ([Event.getSalt (saltUrl bot.email)], v) := by
    unfold _get_salt
    simp [bind, Except.bind, hrfs, Json.pyGet, hfield]
  have h2 : _get_salt bot.email (.ok { status := status, body := .ok (Json.obj []) }) =
      ([Event.getSalt (saltUrl bot.email)], Json.null) := by
    unfold _get_salt
    simp [bind, Except.bind, hrfs, Json.pyGet]
  have htv : v.truthy = false := by
    rcases hfalsy with rfl | rfl <;> rfl
  have htn : Json.null.truthy = false := rfl
  refine ⟨?_, ?_, ?_⟩ <;>
    simp [_authenticate, h1, h2, htv, htn, Event.isSignIn, List.countP_cons]

/-- C10 (witness): a 200 response whose salt field is JSON null. -/
theorem auth_falsy_salt_like_missing_witness :
    (_authenticate exBot exHash
      (.ok { status := 200, body := .ok (Json.obj [("salt", Json.null)]) })
      (fun _ => .ok (Json.obj []))).2 =
      .error (.exc "Failed to retrieve salt from Sorare API.") ∧
    ((_authenticate exBot exHash
      (.ok { status := 200, body := .ok (Json.obj [("salt", Json.null)]) })
      (fun _ => .ok (Json.obj []))).1).countP Event.isSignIn = 0 ∧
    _authenticate exBot exHash
      (.ok { status := 200, body := .ok (Json.obj [("salt", Json.null)]) })
      (fun _ => .ok (Json.obj [])) =
      _authenticate exBot exHash
        (.ok { status := 200, body := .ok (Json.obj []) })
        (fun _ => .ok (Json.obj [])) :=
  auth_falsy_salt_like_missing exBot exHash (fun _ => .ok (Json.obj []))
    200 [("salt", Json.null)] Json.null (by decide) rfl (Or.inl rfl)

/-- When the fetch raised (its result is an error), its own event list
contains no webhook post: the caught-execute branch is the only one that
posts, and it returns the empty list, not an error. -/
theorem fetch_error_no_posts (client : Option GqlClient) (webhook : String)
    (execOutcome : GqlClient → Except PyErr Json)
    (post : PostRequest → Except PyErr Json) (e : PyErr)
    (h : (_fetch_listings client webhook execOutcome post).2 = .error e) :
    ((_fetch_listings client webhook execOutcome post).1).filterMap Event.postReq = [] := by
  unfold _fetch_listings at h ⊢
  cases client with
  | none => simp at h
  | some c =>
      cases hr : execOutcome c with
      | error e2 => simp [hr] at h
      | ok result => simp [hr, Event.postReq]

/-- C6: an exception escaping a RUNNING cycle (the only possible source is
the fetch step, since the notifier never raises) is caught at the cycle
boundary: the cycle posts exactly one error alert whose body carries the
exception text, sleeps exactly 60 seconds, and the loop resumes with the
next cycle; this holds for every cycle index and every remaining fuel,
with the same fixed 60-second backoff each time. -/
theorem cycle_error_backoff (client : Option GqlClient) (webhook : String)
    (execs : Nat → GqlClient → Except PyErr Json)
    (post : PostRequest → Except PyErr Json) (fuel k : Nat) (e : PyErr)
    (h : (_fetch_listings client webhook (execs k) post).2 = .error e) :
    runCycles client webhook execs post (fuel + 1) k =
      (_fetch_listings client webhook (execs k) post).1 ++
      [Event.printed ("⚠️ Unexpected error: " ++ e.msg)] ++
      (_send_alert webhook post ("⚠️ Unexpected error: " ++ e.msg)).1 ++
      [Event.sleep 60] ++
      runCycles client webhook execs post fuel (k + 1) ∧
    (cycleStep client webhook (execs k) post).filterMap Event.postReq =
      [{ url := webhook,
         body := Json.obj [("content", Json.str ("⚠️ Unexpected error: " ++ e.msg))],
         timeout := 5 }] := by
  have hstep : cycleStep client webhook (execs k) post =
      (_fetch_listings client webhook (execs k) post).1 ++
      [Event.printed ("⚠️ Unexpected error: " ++ e.msg)] ++
      (_send_alert webhook post ("⚠️ Unexpected error: " ++ e.msg)).1 ++
      [Event.sleep 60] := by
    unfold cycleStep
    simp [h, List.append_assoc]
  constructor
  · rw [show runCycles client webhook execs post (fuel + 1) k =
        cycleStep client webhook (execs k) post ++
        runCycles client webhook execs post fuel (k + 1) from rfl, hstep]
  · rw [hstep]
    simp [List.filterMap_append, fetch_error_no_posts client webhook (execs k) post e h,
      (send_alert_events webhook post _).1, Event.postReq]

/-- C6 (witness): a cycle whose response is malformed at the top level
(`football` is JSON null), so the parse raises an `AttributeError`. -/
theorem cycle_error_backoff_witness :
    (_fetch_listings (some exClient) exBot.webhook
      ((fun _ _ => .ok (Json.obj [("football", Json.null)])) 0) postOk).2 =
      .error (.attributeError "get") ∧
    (runCycles (some exClient) exBot.webhook
        (fun _ _ => .ok (Json.obj [("football", Json.null)])) postOk (1 + 1) 0 =
      (_fetch_listings (some exClient) exBot.webhook
        ((fun _ _ => .ok (Json.obj [("football", Json.null)])) 0) postOk).1 ++
      [Event.printed ("⚠️ Unexpected error: " ++ (PyErr.attributeError "get").msg)] ++
      (_send_alert exBot.webhook postOk
        ("⚠️ Unexpected error: " ++ (PyErr.attributeError "get").msg)).1 ++
      [Event.sleep 60] ++
      runCycles (some exClient) exBot.webhook
        (fun _ _ => .ok (Json.obj [("football", Json.null)])) postOk 1 (0 + 1) ∧
    (cycleStep (some exClient) exBot.webhook
        ((fun _ _ => .ok (Json.obj [("football", Json.null)])) 0) postOk).filterMap
        Event.postReq =
      [{ url := exBot.webhook,
         body := Json.obj [("content",
           Json.str ("⚠️ Unexpected error: " ++ (PyErr.attributeError "get").msg))],
         timeout := 5 }]) :=
  ⟨rfl, cycle_error_backoff (some exClient) exBot.webhook
    (fun _ _ => .ok (Json.obj [("football", Json.null)])) postOk 1 0
    (.attributeError "get") rfl⟩

/-- C7: when startup authentication raises, `run` prints the critical
failure message, posts exactly one critical alert and returns: the trace
is independent of the available fuel, contains no listings query, and the
salt request happens exactly once (authentication is never retried). -/
theorem critical_failure_terminal (bot : SorareBot)
    (hashpw : String → String → String) (getOutcome : Except PyErr HttpResponse)
    (signInOutcome : String → Except PyErr Json)
    (execs : Nat → GqlClient → Except PyErr Json)
    (post : PostRequest → Except PyErr Json) (fuel : Nat) (e : PyErr)
    (h : (_authenticate bot hashpw getOutcome signInOutcome).2 = .error e) :
    run bot hashpw getOutcome signInOutcome execs post fuel =
      (_authenticate bot hashpw getOutcome signInOutcome).1 ++
      [Event.printed ("🔴 Critical failure: " ++ e.msg)] ++
      (_send_alert bot.webhook post ("🔴 Critical failure: " ++ e.msg)).1 ∧
    (run bot hashpw getOutcome signInOutcome execs post fuel).countP Event.isFetch = 0 ∧
    (run bot hashpw getOutcome signInOutcome execs post fuel).countP Event.isGetSalt = 1 ∧
    (run bot hashpw getOutcome signInOutcome execs post fuel).filterMap Event.postReq =
      [{ url := bot.webhook,
         body := Json.obj [("content", Json.str ("🔴 Critical failure: " ++ e.msg))],
         timeout := 5 }] := by
  obtain ⟨haf, hap, hag⟩ := authenticate_events bot hashpw getOutcome signInOutcome
  obtain ⟨hsp, hsf, hsg⟩ := send_alert_events bot.webhook post ("🔴 Critical failure: " ++ e.msg)
  have htrace : run bot hashpw getOutcome signInOutcome execs post fuel =
      (_authenticate bot hashpw getOutcome signInOutcome).1 ++
      [Event.printed ("🔴 Critical failure: " ++ e.msg)] ++
      (_send_alert bot.webhook post ("🔴 Critical failure: " ++ e.msg)).1 := by
    unfold run
    rcases ha : _authenticate bot hashpw getOutcome signInOutcome with ⟨ev, r⟩
    rw [ha] at h
    simp only at h
    subst h
    simp
  refine ⟨htrace, ?_, ?_, ?_⟩ <;> rw [htrace] <;>
    simp [List.countP_append, List.filterMap_append, haf, hap, hag, hsp, hsf, hsg,
      Event.isFetch, Event.isGetSalt, Event.postReq]

/-- C7 (witness): authentication failing on a concrete salt network
error, observed with nonzero fuel. -/
theorem critical_failure_terminal_witness :
    (_authenticate exBot exHash (.error (.requestError "dns failure"))
      (fun _ => .ok (Json.obj []))).2 =
      .error (.exc "Failed to retrieve salt from Sorare API.") ∧
    (run exBot exHash (.error (.requestError "dns failure")) (fun _ => .ok (Json.obj []))
        (fun _ _ => .ok (Json.obj [])) postOk 3 =
      (_authenticate exBot exHash (.error (.requestError "dns failure"))
        (fun _ => .ok (Json.obj []))).1 ++
      [Event.printed ("🔴 Critical failure: " ++
        (PyErr.exc "Failed to retrieve salt from Sorare API.").msg)] ++
      (_send_alert exBot.webhook postOk ("🔴 Critical failure: " ++
        (PyErr.exc "Failed to retrieve salt from Sorare API.").msg)).1 ∧
    (run exBot exHash (.error (.requestError "dns failure")) (fun _ => .ok (Json.obj []))
        (fun _ _ => .ok (Json.obj [])) postOk 3).countP Event.isFetch = 0 ∧
    (run exBot exHash (.error (.requestError "dns failure")) (fun _ => .ok (Json.obj []))
        (fun _ _ => .ok (Json.obj [])) postOk 3).countP Event.isGetSalt = 1 ∧
    (run exBot exHash (.error (.requestError "dns failure")) (fun _ => .ok (Json.obj []))
        (fun _ _ => .ok (Json.obj [])) postOk 3).filterMap Event.postReq =
      [{ url := exBot.webhook,
         body := Json.obj [("content", Json.str ("🔴 Critical failure: " ++
           (PyErr.exc "Failed to retrieve salt from Sorare API.").msg))],
         timeout := 5 }]) :=
  ⟨rfl, critical_failure_terminal exBot exHash (.error (.requestError "dns failure"))
    (fun _ => .ok (Json.obj [])) (fun _ _ => .ok (Json.obj [])) postOk 3
    (.exc "Failed to retrieve salt from Sorare API.") rfl⟩

/-- A successful `signInProcess` always installs an authenticated client
in the returned bot. -/
theorem signInProcess_client (bot b2 : SorareBot) (result : Json)
    (h : signInProcess bot result = .ok b2) : b2.client.isSome = true := by
  unfold signInProcess at h
  simp only [bind, Except.bind] at h
  split at h
  · simp at h
  · split at h
    · simp at h
    · split at h
      · simp at h
      · split at h
        · simp at h
        · split at h
          · simp at h
          · split at h
            · simp at h
            · simp only [pure, Except.pure, Except.ok.injEq] at h
              subst h
              rfl

/-- A successful `_authenticate` always returns a bot with a session. -/
theorem authenticate_ok_client (bot b2 : SorareBot)
    (hashpw : String → String → String) (g : Except PyErr HttpResponse)
    (s : String → Except PyErr Json)
    (h : (_authenticate bot hashpw g s).2 = .ok b2) : b2.client.isSome = true := by
  by_cases ht : ((_get_salt bot.email g).2).truthy = true
  · simp only [_authenticate, ht, if_true] at h
    split at h
    · simp at h
    · split at h
      · simp at h
      · simp only at h
        exact signInProcess_client bot b2 _ h
  · simp only [_authenticate, ht, if_false] at h
    simp at h

/-- `_send_alert` emits no fetch event. -/
theorem not_fetch_mem_send_alert (webhook : String)
    (post : PostRequest → Except PyErr Json) (message : String)
    (copt : Option GqlClient) :
    Event.fetchQuery copt ∉ (_send_alert webhook post message).1 := by
  intro hmem
  have h0 := (send_alert_events webhook post message).2.1
  rw [List.countP_eq_zero] at h0
  have h1 := h0 _ hmem
  simp [Event.isFetch] at h1

/-- `_authenticate` emits no fetch event. -/
theorem not_fetch_mem_auth (bot : SorareBot) (hashpw : String → String → String)
    (g : Except PyErr HttpResponse) (s : String → Except PyErr Json)
    (copt : Option GqlClient) :
    Event.fetchQuery copt ∉ (_authenticate bot hashpw g s).1 := by
  intro hmem
  have h0 := (authenticate_events bot hashpw g s).1
  rw [List.countP_eq_zero] at h0
  have h1 := h0 _ hmem
  simp [Event.isFetch] at h1

/-- Every fetch event emitted by `_fetch_listings` carries the client the
fetcher was invoked on. -/
theorem mem_fetch_fetch_listings (client copt : Option GqlClient) (webhook : String)
    (execOutcome : GqlClient → Except PyErr Json)
    (post : PostRequest → Except PyErr Json)
    (h : Event.fetchQuery copt ∈ (_fetch_listings client webhook execOutcome post).1) :
    copt = client := by
  cases client with
  | none =>
      simp only [_fetch_listings] at h
      simp [List.mem_append, List.mem_cons, not_fetch_mem_send_alert] at h
      exact h
  | some c =>
      cases hr : execOutcome c with
      | error e =>
          simp only [_fetch_listings, hr] at h
          simp [List.mem_append, List.mem_cons, not_fetch_mem_send_alert] at h
          exact h
      | ok result =>
          simp only [_fetch_listings, hr] at h
          simp [List.mem_cons] at h
          exact h

/-- Every fetch event of one run-loop cycle carries the loop client. -/
theorem mem_fetch_cycleStep (client copt : Option GqlClient) (webhook : String)
    (execOutcome : GqlClient → Except PyErr Json)
    (post : PostRequest → Except PyErr Json)
    (h : Event.fetchQuery copt ∈ cycleStep client webhook execOutcome post) :
    copt = client := by
  rcases hf2 : (_fetch_listings client webhook execOutcome post).2 with e | listings
  · simp only [cycleStep, hf2] at h
    simp [List.mem_append, List.mem_cons, not_fetch_mem_send_alert] at h
    exact mem_fetch_fetch_listings client copt webhook execOutcome post h
  · simp only [cycleStep, hf2] at h
    simp [List.mem_append, List.mem_cons, List.mem_flatten, List.mem_map,
      not_fetch_mem_send_alert] at h
    exact mem_fetch_fetch_listings client copt webhook execOutcome post h

/-- Every fetch event of the whole cycle loop carries the loop client. -/
theorem mem_fetch_runCycles (client copt : Option GqlClient) (webhook : String)
    (execs : Nat → GqlClient → Except PyErr Json)
    (post : PostRequest → Except PyErr Json) :
    ∀ (fuel k : Nat),
      Event.fetchQuery copt ∈ runCycles client webhook execs post fuel k →
      copt = client := by
  intro fuel
  induction fuel with
  | zero =>
      intro k h
      simp [runCycles] at h
  | succ n ih =>
      intro k h
      rw [show runCycles client webhook execs post (n + 1) k =
          cycleStep client webhook (execs k) post ++
          runCycles client webhook execs post n (k + 1) from rfl] at h
      rcases List.mem_append.mp h with h | h
      · exact mem_fetch_cycleStep client copt webhook (execs k) post h
      · exact ih (k + 1) h

/-- The run trace when startup authentication raises. -/
theorem run_trace_error (bot : SorareBot) (hashpw : String → String → String)
    (g : Except PyErr HttpResponse) (s : String → Except PyErr Json)
    (execs : Nat → GqlClient → Except PyErr Json)
    (post : PostRequest → Except PyErr Json) (fuel : Nat) (e : PyErr)
    (h : (_authenticate bot hashpw g s).2 = .error e) :
    run bot hashpw g s execs post fuel =
      (_authenticate bot hashpw g s).1 ++
      [Event.printed ("🔴 Critical failure: " ++ e.msg)] ++
      (_send_alert bot.webhook post ("🔴 Critical failure: " ++ e.msg)).1 := by
  unfold run
  rcases ha : _authenticate bot hashpw g s with ⟨ev, r⟩
  rw [ha] at h
  simp only at h
  subst h
  simp

/-- The run trace when startup authentication succeeds. -/
theorem run_trace_ok (bot b2 : SorareBot) (hashpw : String → String → String)
    (g : Except PyErr HttpResponse) (s : String → Except PyErr Json)
    (execs : Nat → GqlClient → Except PyErr Json)
    (post : PostRequest → Except PyErr Json) (fuel : Nat)
    (h : (_authenticate bot hashpw g s).2 = .ok b2) :
    run bot hashpw g s execs post fuel =
      (_authenticate bot hashpw g s).1 ++
      (_send_alert b2.webhook post "🟢 Sorare Bot Started Successfully").1 ++
      [Event.printed "🟢 Bot is running..."] ++
      runCycles b2.client b2.webhook execs post fuel 0 := by
  unfold run
  rcases ha : _authenticate bot hashpw g s with ⟨ev, r⟩
  rw [ha] at h
  simp only at h
  subst h
  simp

/-- A salt response accepted by `_authenticate`. -/
def goodSalt : Except PyErr HttpResponse :=
  .ok { status := 200, body := .ok (Json.obj [("salt", Json.str "abc123")]) }

/-- A sign-in response carrying a token and an empty errors list. -/
def goodSignIn : String → Except PyErr Json := fun _ =>
  .ok (Json.obj [("signIn", Json.obj [("errors", Json.arr []),
    ("jwtToken", Json.obj [("token", Json.str "jwt-token")])])])

/-- The client installed by a successful run on the good fixtures. -/
def exAuthedClient : GqlClient := mkAuthedClient (Json.str "jwt-token")

/-- C8: the session slot is non-None exactly when `_authenticate` has
returned successfully (on success the returned bot carries a session; on
failure the slot is still None), and the fetcher is never invoked before
a session exists: every listings-query event of any run carries the
session installed by the successful authentication. -/
theorem session_iff_auth (bot : SorareBot) (hashpw : String → String → String)
    (g : Except PyErr HttpResponse) (s : String → Except PyErr Json)
    (execs : Nat → GqlClient → Except PyErr Json)
    (post : PostRequest → Except PyErr Json) (fuel : Nat)
    (hc : bot.client = none) :
    (∀ b2, (_authenticate bot hashpw g s).2 = .ok b2 → b2.client.isSome = true) ∧
    (∀ e, (_authenticate bot hashpw g s).2 = .error e →
      clientAfter bot (_authenticate bot hashpw g s) = none ∧
      (run bot hashpw g s execs post fuel).countP Event.isFetch = 0) ∧
    (∀ copt, Event.fetchQuery copt ∈ run bot hashpw g s execs post fuel →
      ∃ b2, (_authenticate bot hashpw g s).2 = .ok b2 ∧ copt = b2.client ∧
        copt.isSome = true) := by
  refine ⟨?_, ?_, ?_⟩
  · intro b2 h
    exact authenticate_ok_client bot b2 hashpw g s h
  · intro e h
    constructor
    · unfold clientAfter
      rw [h]
      exact hc
    · rw [run_trace_error bot hashpw g s execs post fuel e h]
      simp [List.countP_append, (authenticate_events bot hashpw g s).1,
        (send_alert_events bot.webhook post _).2.1, Event.isFetch]
  · intro copt hmem
    rcases hr : (_authenticate bot hashpw g s).2 with e | b2
    · rw [run_trace_error bot hashpw g s execs post fuel e hr] at hmem
      rcases List.mem_append.mp hmem with hmem | hmem
      · rcases List.mem_append.mp hmem with hmem | hmem
        · exact absurd hmem (not_fetch_mem_auth bot hashpw g s copt)
        · exact absurd hmem (by simp)
      · exact absurd hmem (not_fetch_mem_send_alert bot.webhook post _ copt)
    · rw [run_trace_ok bot b2 hashpw g s execs post fuel hr] at hmem
      rcases List.mem_append.mp hmem with hmem | hmem
      · rcases List.mem_append.mp hmem with hmem | hmem
        · rcases List.mem_append.mp hmem with hmem | hmem
          · exact absurd hmem (not_fetch_mem_auth bot hashpw g s copt)
          · exact absurd hmem (not_fetch_mem_send_alert b2.webhook post _ copt)
        · exact absurd hmem (by simp)
      · have hcopt := mem_fetch_runCycles b2.client copt b2.webhook execs post fuel 0 hmem
        refine ⟨b2, rfl, hcopt, ?_⟩
        rw [hcopt]
        exact authenticate_ok_client bot b2 hashpw g s hr

/-- C8 (witness): on a concrete run with a successful sign-in, the fetch
event of the first cycle carries the installed session. -/
theorem session_iff_auth_witness :
    exBot.client = none ∧
    (∃ b2, (_authenticate exBot exHash goodSalt goodSignIn).2 = .ok b2 ∧
      (some exAuthedClient : Option GqlClient) = b2.client ∧
      (some exAuthedClient : Option GqlClient).isSome = true) :=
  ⟨rfl, (session_iff_auth exBot exHash goodSalt goodSignIn
      (fun _ _ => .ok (Json.obj [])) postOk 1 rfl).2.2 (some exAuthedClient)
    (by
      rw [show run exBot exHash goodSalt goodSignIn
          (fun _ _ => .ok (Json.obj [])) postOk 1 =
        [Event.getSalt (saltUrl "user@example.com"), Event.signIn,
         Event.post { url := exBot.webhook, body := Json.obj [("content", Json.str "🟢 Sorare Bot Started Successfully")], timeout := 5 },
         Event.printed "🟢 Bot is running...",
         Event.fetchQuery (some exAuthedClient),
         Event.printed "API Response: \x7b\x7d",
         Event.sleep 300] from rfl]
      exact List.mem_cons_of_mem _ (List.mem_cons_of_mem _ (List.mem_cons_of_mem _
        (List.mem_cons_of_mem _ (List.mem_cons_self _ _)))))⟩

/-- A successful card loop yields one listing per node, positionally. -/
theorem parseCards_spec : ∀ (nodes : List Json) (listings : List Listing),
    parseCards nodes = .ok listings →
    listings.length = nodes.length ∧
    ∀ (i : Nat) (hi : i < nodes.length) (hl : i < listings.length),
      parseCard (nodes.get ⟨i, hi⟩) = .ok (listings.get ⟨i, hl⟩) := by
  intro nodes
  induction nodes with
  | nil =>
      intro listings h
      simp only [parseCards, Except.ok.injEq] at h
      subst h
      exact ⟨rfl, fun i hi _ => absurd hi (Nat.not_lt_zero i)⟩
  | cons card rest ih =>
      intro listings h
      simp only [parseCards, bind, Except.bind] at h
      cases h1 : parseCard card with
      | error e => rw [h1] at h; simp at h
      | ok l =>
          rw [h1] at h
          cases h2 : parseCards rest with
          | error e => rw [h2] at h; simp at h
          | ok tail =>
              rw [h2] at h
              simp only [pure, Except.pure, Except.ok.injEq] at h
              subst h
              obtain ⟨ihlen, ihget⟩ := ih tail h2
              refine ⟨by simp [ihlen], ?_⟩
              intro i hi hl
              cases i with
              | zero => simpa using h1
              | succ n =>
                  simpa using ihget n (Nat.lt_of_succ_lt_succ hi)
                    (Nat.lt_of_succ_lt_succ hl)

/-- C9: on a successful cycle, `_fetch_listings` returns exactly the list
produced by the card loop: one listing per node of the response, in the
order the API returned them, with no re-sorting and no deduplication; the
query itself caps the result at the top 5 listed cards. -/
theorem fetch_listings_order (c : GqlClient) (webhook : String)
    (execOutcome : GqlClient → Except PyErr Json)
    (post : PostRequest → Except PyErr Json)
    (nodes : List Json) (listings : List Listing)
    (h : execOutcome c = .ok (Json.obj [("football", Json.obj [("cards",
      Json.obj [("nodes", Json.arr nodes)])])]))
    (hok : parseCards nodes = .ok listings) :
    (_fetch_listings (some c) webhook execOutcome post).2 = .ok listings ∧
    listings.length = nodes.length ∧
    (∀ (i : Nat) (hi : i < nodes.length) (hl : i < listings.length),
      parseCard (nodes.get ⟨i, hi⟩) = .ok (listings.get ⟨i, hl⟩)) ∧
    listingsQuery.first = 5 := by
  have hp : parseListings (Json.obj [("football", Json.obj [("cards",
      Json.obj [("nodes", Json.arr nodes)])])]) = parseCards nodes := rfl
  refine ⟨?_, (parseCards_spec nodes listings hok).1,
    (parseCards_spec nodes listings hok).2, rfl⟩
  simp only [_fetch_listings, h, hp, hok]

/-- A card node carrying one sale offer of 1000000 WEI. -/
def wCardA : Json :=
  Json.obj [("slug", Json.str "card-a"),
    ("player", Json.obj [("displayName", Json.str "Player A")]),
    ("saleOffers", Json.obj [("edges", Json.arr [Json.obj [("node",
      Json.obj [("price", Json.obj [("amount", Json.str "1000000"),
        ("currency", Json.str "WEI")])])]])])]

/-- A card node with no sale offers. -/
def wCardB : Json :=
  Json.obj [("slug", Json.str "card-b"),
    ("player", Json.obj [("displayName", Json.str "Player B")]),
    ("saleOffers", Json.obj [("edges", Json.arr [])])]

/-- A well-formed two-card listings response. -/
def wResponse : Json :=
  Json.obj [("football", Json.obj [("cards",
    Json.obj [("nodes", Json.arr [wCardA, wCardB])])])]

/-- The query oracle returning the two-card response. -/
def wExec : GqlClient → Except PyErr Json := fun _ => .ok wResponse

/-- The listings parsed from the two-card response, in response order. -/
def wListings : List Listing :=
  [{ slug := Json.str "card-a", price := Json.str "1000000",
     currency := Json.str "WEI", player := Json.str "Player A" },
   { slug := Json.str "card-b", price := Json.str "N/A",
     currency := Json.str "N/A", player := Json.str "Player B" }]

/-- C9 (witness): the two-card response maps to two listings in the order
the API returned them. -/
theorem fetch_listings_order_witness :
    wExec exClient = .ok (Json.obj [("football", Json.obj [("cards",
      Json.obj [("nodes", Json.arr [wCardA, wCardB])])])]) ∧
    parseCards [wCardA, wCardB] = .ok wListings ∧
    (_fetch_listings (some exClient) exBot.webhook wExec postOk).2 = .ok wListings ∧
    wListings.length = [wCardA, wCardB].length :=
  ⟨rfl, rfl,
   (fetch_listings_order exClient exBot.webhook wExec postOk
     [wCardA, wCardB] wListings rfl rfl).1,
   (fetch_listings_order exClient exBot.webhook wExec postOk
     [wCardA, wCardB] wListings rfl rfl).2.1⟩

end Sorare
